import Mathlib

/-!
Verification of the monitoring/decision core of `fritzbox_watchdog`
(`src/watchdog/watchdog.py` and `src/watchdog/netstat.py`).

Modelling conventions:
* `time.time()` values are modelled as integers (`ℤ`, seconds): the Python
  code uses the float clock only for subtraction and comparison against
  integer second counts, none of which is precision-critical for the
  properties below; the one float division (`remaining_hours = ... / 3600`)
  is modelled as exact division in `ℚ`.
* Python's unbounded signed integers are modelled as `Int` for the counters
  that the code decrements (`restart_count`, `total_restarts_attempted`) and
  as `Nat` for counters that are only ever incremented or zeroed.
* Calls to external collaborators (`check_internet`, `FritzBoxTR064
  .check_connection`, `FritzBoxTR064.restart_router`, the `time.time()` clock)
  are modelled as explicit inputs: an outcome value or a timestamp supplied to
  each step. An exceptional return of a collaborator is one of the outcome
  constructors, matching the `try`/`except` structure of the source.
* Logging calls are side-effect free for the state and are dropped.
-/

namespace FritzboxWatchdog

/-- Outcome of one `check_internet()` call as seen by its caller inside
`FritzBoxWatchdog.check_connectivity`: the probe returned `True`, returned
`False`, or raised an exception (the `except Exception` branch). -/
inductive ProbeOutcome where
  | up : ProbeOutcome
  | down : ProbeOutcome
  | exn : ProbeOutcome
deriving DecidableEq, Repr

/-- Outcome of a call into the router client (`check_connection` /
`restart_router` on `FritzBoxTR064`): a boolean result, or a raised
exception caught by the enclosing `try`/`except`. -/
inductive CallOutcome where
  | ok : Bool → CallOutcome
  | exn : CallOutcome
deriving DecidableEq, Repr

/-- The mutable fields of `FritzBoxWatchdog` (`watchdog.py` `__init__`) that
the decision core reads or writes, plus the configuration fields it consults.
`checkInterval` and `restartWait` only feed sleeps and logs, so they are
omitted; `lastRestartTime` is initialised to `0` as in the source. -/
structure WatchdogState where
  maxFailures : Nat
  consecutiveFailures : Nat
  checkCount : Nat
  totalSuccessfulChecks : Nat
  totalFailedChecks : Nat
  lastSuccessTime : ℤ
  lastFailureTime : ℤ
  restartCount : Int
  maxRestartsBeforeCooldown : Int
  cooldownHours : ℤ
  lastRestartTime : ℤ
  inCooldown : Bool
  totalRestartsAttempted : Int
  successfulRestarts : Nat
deriving DecidableEq, Repr

/-- The state right after `FritzBoxWatchdog.__init__` (before any check):
all counters zero, `in_cooldown = False`, `last_restart_time = 0`.
`max_failures`, `max_restarts_before_cooldown` (default 3) and
`cooldown_hours` (default 12) are configuration, possibly overridden from the
environment, so they are parameters here. -/
def initState (maxFailures : Nat) (maxRestarts : Int) (cooldownHours : ℤ) :
    WatchdogState where
  maxFailures := maxFailures
  consecutiveFailures := 0
  checkCount := 0
  totalSuccessfulChecks := 0
  totalFailedChecks := 0
  lastSuccessTime := 0
  lastFailureTime := 0
  restartCount := 0
  maxRestartsBeforeCooldown := maxRestarts
  cooldownHours := cooldownHours
  lastRestartTime := 0
  inCooldown := false
  totalRestartsAttempted := 0
  successfulRestarts := 0

/-- Return value of `FritzBoxWatchdog._is_in_cooldown`: Python returns
`False` (not in cooldown) or the tuple `(True, remaining_hours)`. -/
inductive CooldownResult where
  | no : CooldownResult
  | yes : ℚ → CooldownResult
deriving DecidableEq, Repr

/-- `FritzBoxWatchdog._is_in_cooldown` (watchdog.py lines 184-202).
Takes the current clock value (`time.time()`) as an argument and returns the
Python return value together with the updated state (the expired-cooldown
branch mutates `self.restart_count` and `self.in_cooldown`). -/
def isInCooldown (s : WatchdogState) (currentTime : ℤ) :
    CooldownResult × WatchdogState :=
  if s.restartCount < s.maxRestartsBeforeCooldown then
    (.no, s)
  else
    let cooldownSeconds : ℤ := s.cooldownHours * 3600
    let timeSinceLastRestart : ℤ := currentTime - s.lastRestartTime
    if timeSinceLastRestart < cooldownSeconds then
      let remainingHours : ℚ := ((cooldownSeconds - timeSinceLastRestart : ℤ) : ℚ) / 3600
      (.yes remainingHours, s)
    else
      (.no, { s with restartCount := 0, inCooldown := false })

/-- `FritzBoxWatchdog.check_connectivity` (watchdog.py lines 134-182).
`probe` is the outcome of the `check_internet()` call; `now` is the value
`time.time()` would return inside this call.  Returns the boolean result and
the updated state.  The periodic `_health_check`/`_log_statistics` calls and
`network_diagnostics()` are observability only and touch no state. -/
def check_connectivity (s : WatchdogState) (probe : ProbeOutcome) (now : ℤ) :
    Bool × WatchdogState :=
  let s := { s with checkCount := s.checkCount + 1 }
  match probe with
  | .up =>
      let s := { s with
        totalSuccessfulChecks := s.totalSuccessfulChecks + 1,
        lastSuccessTime := now }
      let s :=
        if 0 < s.consecutiveFailures then
          if (0 : Int) < s.restartCount then
            { s with restartCount := 0, inCooldown := false }
          else s
        else s
      (true, { s with consecutiveFailures := 0 })
  | .down =>
      (false, { s with
        consecutiveFailures := s.consecutiveFailures + 1,
        totalFailedChecks := s.totalFailedChecks + 1,
        lastFailureTime := now })
  | .exn =>
      (false, { s with
        totalFailedChecks := s.totalFailedChecks + 1,
        consecutiveFailures := s.consecutiveFailures + 1 })

/-- The external events consumed by one `FritzBoxWatchdog.restart_router`
call: the clock value at the `_is_in_cooldown` check, the outcome of
`self.fritz.check_connection()`, the outcome of `self.fritz.restart_router()`,
the clock value stored into `last_restart_time` on success, and the outcome of
the post-restart `check_internet()` probe. -/
structure RestartEnv where
  now : ℤ
  reachable : CallOutcome
  restartCall : CallOutcome
  restartTime : ℤ
  postProbe : ProbeOutcome
deriving DecidableEq, Repr

/-- `FritzBoxWatchdog.restart_router` (watchdog.py lines 204-294).
Returns the boolean result and the updated state.  The restart-wait sleep
loop touches no counters and is dropped. -/
def restart_router (s : WatchdogState) (env : RestartEnv) :
    Bool × WatchdogState :=
  let s := { s with totalRestartsAttempted := s.totalRestartsAttempted + 1 }
  match isInCooldown s env.now with
  | (.yes _, s') => (false, s')
  | (.no, s') =>
    let s := { s' with restartCount := s'.restartCount + 1 }
    match env.reachable with
    | .ok false => (false, s)
    | .exn => (false, s)
    | .ok true =>
      match env.restartCall with
      | .exn =>
          (false, { s with
            restartCount := s.restartCount - 1,
            totalRestartsAttempted := s.totalRestartsAttempted - 1 })
      | .ok false =>
          (false, { s with restartCount := s.restartCount - 1 })
      | .ok true =>
          let s := { s with
            successfulRestarts := s.successfulRestarts + 1,
            lastRestartTime := env.restartTime }
          let s :=
            if s.maxRestartsBeforeCooldown ≤ s.restartCount then
              { s with inCooldown := true }
            else s
          match env.postProbe with
          | .up => (true, { s with consecutiveFailures := 0 })
          | .down => (false, s)
          | .exn => (false, s)

/-! ### netstat.py: the connectivity probe -/

/-- Outcome of the underlying `subprocess.run(['ping', ...])` primitive in
`netstat.py ping_test`: the process ran and exited with a code, or one of the
exceptional terminations caught by `ping_test`'s `except` clauses
(`subprocess.TimeoutExpired`, `FileNotFoundError`, any other `Exception`). -/
inductive PingOutcome where
  | ran : Int → PingOutcome
  | timeoutExpired : PingOutcome
  | fileNotFound : PingOutcome
  | otherError : PingOutcome
deriving DecidableEq, Repr

/-- `ping_test` (netstat.py lines 15-52) as a function of the primitive's
outcome: `True` iff the ping process exited with code 0; every `except`
branch returns `False`, so the function is total on all outcomes. -/
def ping_test (o : PingOutcome) : Bool :=
  match o with
  | .ran exitCode => exitCode == 0
  | .timeoutExpired => false
  | .fileNotFound => false
  | .otherError => false

/-- The fixed host list of `check_internet` (netstat.py lines 66-71). -/
def hosts : List String :=
  ["8.8.8.8", "1.1.1.1", "8.8.4.4", "208.67.222.222"]

/-- `check_internet` (netstat.py lines 55-105) as a function of the per-host
ping outcomes.  The loop counts hosts whose `ping_test` returns `True`
(`working`); the per-host `try`/`except` would count a host whose probe
raises as not working, but `ping_test` is total, so the handler adds
nothing.  Connectivity requires a strict majority:
`working >= total_hosts // 2 + 1`. -/
def check_internet (probe : String → PingOutcome) : Bool :=
  let working := hosts.countP (fun host => ping_test (probe host))
  let total_hosts := hosts.length
  let required_working := total_hosts / 2 + 1
  decide (required_working ≤ working)

/-- A probe assignment giving each of the four hosts a clean boolean result
(exit code 0 for success, 1 for failure), for quantifying over the
16 boolean combinations of the quorum law. -/
def probeOfBools (r1 r2 r3 r4 : Bool) : String → PingOutcome := fun host =>
  if host = "8.8.8.8" then .ran (if r1 then 0 else 1)
  else if host = "1.1.1.1" then .ran (if r2 then 0 else 1)
  else if host = "8.8.4.4" then .ran (if r3 then 0 else 1)
  else .ran (if r4 then 0 else 1)

/-! ### The step machine: sequences of core operations -/

/-- One observable step of the watchdog core: a connectivity check (with its
probe outcome and clock value) or a restart attempt (with its external
events). -/
inductive WStep where
  | check : ProbeOutcome → ℤ → WStep
  | restart : RestartEnv → WStep
deriving DecidableEq, Repr

/-- Apply one step to the state, discarding the boolean result. -/
def stepFn (s : WatchdogState) (st : WStep) : WatchdogState :=
  match st with
  | .check probe now => (check_connectivity s probe now).2
  | .restart env => (restart_router s env).2

/-- Run a sequence of steps from a state. -/
def run (s : WatchdogState) (steps : List WStep) : WatchdogState :=
  steps.foldl stepFn s

/-- Run a sequence of connectivity checks (probe outcome and clock value per
check) from a state. -/
def runChecks (s : WatchdogState) (seq : List (ProbeOutcome × ℤ)) :
    WatchdogState :=
  seq.foldl (fun s pr => (check_connectivity s pr.1 pr.2).2) s

/-- Specification-side count: the number of checks after the most recent
successful check of the sequence (all of the sequence when no check
succeeded). -/
def failsSinceLastSuccess (seq : List (ProbeOutcome × ℤ)) : Nat :=
  (seq.reverse.takeWhile (fun pr => decide (pr.1 ≠ ProbeOutcome.up))).length

/-- Whether the sequence contains a successful check. -/
def hasSuccess (seq : List (ProbeOutcome × ℤ)) : Bool :=
  seq.any (fun pr => decide (pr.1 = ProbeOutcome.up))

/-! ### Helper lemmas -/

/-- Case analysis of `_is_in_cooldown`: below the cap it permits and leaves
the state alone; at or above the cap it either reports the remaining window
(state untouched) or, once the window has elapsed, permits and resets
`restart_count` and `in_cooldown`. -/
lemma isInCooldown_cases (s : WatchdogState) (t : ℤ) :
    (s.restartCount < s.maxRestartsBeforeCooldown ∧ isInCooldown s t = (.no, s)) ∨
    (s.maxRestartsBeforeCooldown ≤ s.restartCount ∧
      t - s.lastRestartTime < s.cooldownHours * 3600 ∧
      isInCooldown s t =
        (.yes (((s.cooldownHours * 3600 - (t - s.lastRestartTime) : ℤ) : ℚ) / 3600), s)) ∨
    (s.maxRestartsBeforeCooldown ≤ s.restartCount ∧
      s.cooldownHours * 3600 ≤ t - s.lastRestartTime ∧
      isInCooldown s t = (.no, { s with restartCount := 0, inCooldown := false })) := by
  unfold isInCooldown
  rcases lt_or_ge s.restartCount s.maxRestartsBeforeCooldown with h | h
  · exact Or.inl ⟨h, by rw [if_pos h]⟩
  · rcases lt_or_ge (t - s.lastRestartTime) (s.cooldownHours * 3600) with h2 | h2
    · exact Or.inr (Or.inl ⟨h, h2, by rw [if_neg (not_lt.mpr h)]; dsimp only; rw [if_pos h2]⟩)
    · exact Or.inr (Or.inr ⟨h, h2, by
        rw [if_neg (not_lt.mpr h)]; dsimp only; rw [if_neg (not_lt.mpr h2)]⟩)

/-- One check step appended to a sequence of checks. -/
lemma runChecks_append (s : WatchdogState) (xs : List (ProbeOutcome × ℤ))
    (x : ProbeOutcome × ℤ) :
    runChecks s (xs ++ [x]) = (check_connectivity (runChecks s xs) x.1 x.2).2 := by
  unfold runChecks
  rw [List.foldl_append]
  rfl

/-- Appending one check to a sequence: whether a success is present. -/
lemma hasSuccess_append (xs : List (ProbeOutcome × ℤ)) (x : ProbeOutcome × ℤ) :
    hasSuccess (xs ++ [x]) = (hasSuccess xs || decide (x.1 = ProbeOutcome.up)) := by
  simp [hasSuccess]

/-- A successful check at the end empties the since-last-success suffix. -/
lemma failsSinceLastSuccess_append_up (xs : List (ProbeOutcome × ℤ)) (t : ℤ) :
    failsSinceLastSuccess (xs ++ [(ProbeOutcome.up, t)]) = 0 := by
  simp [failsSinceLastSuccess]

/-- An unsuccessful check at the end grows the since-last-success suffix by
one. -/
lemma failsSinceLastSuccess_append (xs : List (ProbeOutcome × ℤ)) (p : ProbeOutcome)
    (t : ℤ) (h : p ≠ ProbeOutcome.up) :
    failsSinceLastSuccess (xs ++ [(p, t)]) = failsSinceLastSuccess xs + 1 := by
  simp [failsSinceLastSuccess, h]

/-- `consecutive_failures` after a sequence of checks from an arbitrary
start state: the count of checks after the last success, plus the initial
count when the sequence contains no success. -/
lemma runChecks_cf (s : WatchdogState) (seq : List (ProbeOutcome × ℤ)) :
    (runChecks s seq).consecutiveFailures =
      (if hasSuccess seq = true then 0 else s.consecutiveFailures) +
        failsSinceLastSuccess seq := by
  induction seq using List.reverseRecOn with
  | nil => simp [runChecks, hasSuccess, failsSinceLastSuccess]
  | append_singleton xs x ih =>
      rw [runChecks_append]
      rcases x with ⟨p, t⟩
      cases p with
      | up =>
          have hl : (check_connectivity (runChecks s xs) .up t).2.consecutiveFailures = 0 := rfl
          rw [hl, hasSuccess_append, failsSinceLastSuccess_append_up]
          simp
      | down =>
          have hl : (check_connectivity (runChecks s xs) .down t).2.consecutiveFailures =
              (runChecks s xs).consecutiveFailures + 1 := rfl
          rw [hl, ih, hasSuccess_append, failsSinceLastSuccess_append xs _ t (by decide)]
          simp only [decide_eq_true_eq]
          rw [show (decide (ProbeOutcome.down = ProbeOutcome.up)) = false from rfl,
            Bool.or_false]
          omega
      | exn =>
          have hl : (check_connectivity (runChecks s xs) .exn t).2.consecutiveFailures =
              (runChecks s xs).consecutiveFailures + 1 := rfl
          rw [hl, ih, hasSuccess_append, failsSinceLastSuccess_append xs _ t (by decide)]
          simp only [decide_eq_true_eq]
          rw [show (decide (ProbeOutcome.exn = ProbeOutcome.up)) = false from rfl,
            Bool.or_false]
          omega

/-- `check_connectivity` increments `check_count` by exactly one on every
path. -/
lemma check_connectivity_checkCount (s : WatchdogState) (p : ProbeOutcome) (now : ℤ) :
    (check_connectivity s p now).2.checkCount = s.checkCount + 1 := by
  cases p
  · unfold check_connectivity
    dsimp only
    split
    · split <;> rfl
    · rfl
  · rfl
  · rfl

/-- A successful check bumps `total_successful_checks` and leaves
`total_failed_checks` alone. -/
lemma check_connectivity_counts_up (s : WatchdogState) (now : ℤ) :
    (check_connectivity s .up now).2.totalSuccessfulChecks = s.totalSuccessfulChecks + 1 ∧
    (check_connectivity s .up now).2.totalFailedChecks = s.totalFailedChecks := by
  unfold check_connectivity
  dsimp only
  split
  · split <;> exact ⟨rfl, rfl⟩
  · exact ⟨rfl, rfl⟩

/-- A failed check bumps `total_failed_checks` and leaves
`total_successful_checks` alone. -/
lemma check_connectivity_counts_down (s : WatchdogState) (now : ℤ) :
    (check_connectivity s .down now).2.totalFailedChecks = s.totalFailedChecks + 1 ∧
    (check_connectivity s .down now).2.totalSuccessfulChecks = s.totalSuccessfulChecks :=
  ⟨rfl, rfl⟩

/-- A check that raised bumps `total_failed_checks` and leaves
`total_successful_checks` alone. -/
lemma check_connectivity_counts_exn (s : WatchdogState) (now : ℤ) :
    (check_connectivity s .exn now).2.totalFailedChecks = s.totalFailedChecks + 1 ∧
    (check_connectivity s .exn now).2.totalSuccessfulChecks = s.totalSuccessfulChecks :=
  ⟨rfl, rfl⟩

/-- `restart_router` never touches the check counters, the configuration
fields, or the last-success/failure timestamps. -/
lemma restart_router_preserved_fields (s : WatchdogState) (env : RestartEnv) :
    (restart_router s env).2.maxFailures = s.maxFailures ∧
    (restart_router s env).2.checkCount = s.checkCount ∧
    (restart_router s env).2.totalSuccessfulChecks = s.totalSuccessfulChecks ∧
    (restart_router s env).2.totalFailedChecks = s.totalFailedChecks ∧
    (restart_router s env).2.maxRestartsBeforeCooldown = s.maxRestartsBeforeCooldown ∧
    (restart_router s env).2.cooldownHours = s.cooldownHours ∧
    (restart_router s env).2.lastSuccessTime = s.lastSuccessTime ∧
    (restart_router s env).2.lastFailureTime = s.lastFailureTime := by
  obtain ⟨now, reach, rcall, rtime, pp⟩ := env
  unfold restart_router
  dsimp only
  rcases isInCooldown_cases { s with totalRestartsAttempted := s.totalRestartsAttempted + 1 } now
      with ⟨h, heq⟩ | ⟨h, h2, heq⟩ | ⟨h, h2, heq⟩
  · rw [heq]
    dsimp only
    cases reach with
    | exn => exact ⟨rfl, rfl, rfl, rfl, rfl, rfl, rfl, rfl⟩
    | ok b =>
        cases b
        · exact ⟨rfl, rfl, rfl, rfl, rfl, rfl, rfl, rfl⟩
        · cases rcall with
          | exn => exact ⟨rfl, rfl, rfl, rfl, rfl, rfl, rfl, rfl⟩
          | ok b2 =>
              cases b2
              · exact ⟨rfl, rfl, rfl, rfl, rfl, rfl, rfl, rfl⟩
              · cases pp <;> dsimp only <;> split <;>
                  exact ⟨rfl, rfl, rfl, rfl, rfl, rfl, rfl, rfl⟩
  · rw [heq]
    exact ⟨rfl, rfl, rfl, rfl, rfl, rfl, rfl, rfl⟩
  · rw [heq]
    dsimp only
    cases reach with
    | exn => exact ⟨rfl, rfl, rfl, rfl, rfl, rfl, rfl, rfl⟩
    | ok b =>
        cases b
        · exact ⟨rfl, rfl, rfl, rfl, rfl, rfl, rfl, rfl⟩
        · cases rcall with
          | exn => exact ⟨rfl, rfl, rfl, rfl, rfl, rfl, rfl, rfl⟩
          | ok b2 =>
              cases b2
              · exact ⟨rfl, rfl, rfl, rfl, rfl, rfl, rfl, rfl⟩
              · cases pp <;> dsimp only <;> split <;>
                  exact ⟨rfl, rfl, rfl, rfl, rfl, rfl, rfl, rfl⟩

/-- The inductive invariant behind claim C8: the configured cap is at least
1, `restart_count` stays between 0 and the cap, and the `in_cooldown` flag
is only up when `restart_count` sits exactly at the cap. -/
def CooldownInv (s : WatchdogState) : Prop :=
  1 ≤ s.maxRestartsBeforeCooldown ∧
    0 ≤ s.restartCount ∧
    s.restartCount ≤ s.maxRestartsBeforeCooldown ∧
    (s.inCooldown = true → s.restartCount = s.maxRestartsBeforeCooldown)

/-- `check_connectivity` preserves the cooldown invariant. -/
lemma check_connectivity_cooldownInv (s : WatchdogState) (p : ProbeOutcome) (now : ℤ)
    (h : CooldownInv s) : CooldownInv (check_connectivity s p now).2 := by
  obtain ⟨h1, h2, h3, h4⟩ := h
  cases p with
  | up =>
      unfold check_connectivity
      dsimp only
      split
      · split
        · exact ⟨h1, le_refl 0, le_trans zero_le_one h1, fun hic => Bool.noConfusion hic⟩
        · exact ⟨h1, h2, h3, h4⟩
      · exact ⟨h1, h2, h3, h4⟩
  | down => exact ⟨h1, h2, h3, h4⟩
  | exn => exact ⟨h1, h2, h3, h4⟩

/-- `restart_router` preserves the cooldown invariant. -/
lemma restart_router_cooldownInv (s : WatchdogState) (env : RestartEnv)
    (h : CooldownInv s) : CooldownInv (restart_router s env).2 := by
  obtain ⟨h1, h2, h3, h4⟩ := h
  obtain ⟨now, reach, rcall, rtime, pp⟩ := env
  unfold restart_router
  dsimp only
  rcases isInCooldown_cases { s with totalRestartsAttempted := s.totalRestartsAttempted + 1 } now
      with ⟨hlt, heq⟩ | ⟨hge, hwin, heq⟩ | ⟨hge, hexp, heq⟩
  · have hlt' : s.restartCount < s.maxRestartsBeforeCooldown := hlt
    rw [heq]
    dsimp only
    cases reach with
    | exn =>
        refine ⟨h1, ?_, ?_, ?_⟩ <;> dsimp only
        · omega
        · omega
        · intro hic; have h5 := h4 hic; omega
    | ok b =>
        cases b
        · refine ⟨h1, ?_, ?_, ?_⟩ <;> dsimp only
          · omega
          · omega
          · intro hic; have h5 := h4 hic; omega
        · cases rcall with
          | exn =>
              refine ⟨h1, ?_, ?_, ?_⟩ <;> dsimp only
              · omega
              · omega
              · intro hic; have h5 := h4 hic; omega
          | ok b2 =>
              cases b2
              · refine ⟨h1, ?_, ?_, ?_⟩ <;> dsimp only
                · omega
                · omega
                · intro hic; have h5 := h4 hic; omega
              · cases pp <;> dsimp only <;> split <;>
                  (refine ⟨h1, ?_, ?_, ?_⟩ <;> dsimp only) <;>
                  first
                    | omega
                    | (intro hic; first
                        | exact Bool.noConfusion hic
                        | (have h5 := h4 hic; omega))
  · rw [heq]
    exact ⟨h1, h2, h3, h4⟩
  · have hge' : s.maxRestartsBeforeCooldown ≤ s.restartCount := hge
    rw [heq]
    dsimp only
    cases reach with
    | exn =>
        refine ⟨h1, ?_, ?_, ?_⟩ <;> dsimp only
        · omega
        · omega
        · intro hic; exact Bool.noConfusion hic
    | ok b =>
        cases b
        · refine ⟨h1, ?_, ?_, ?_⟩ <;> dsimp only
          · omega
          · omega
          · intro hic; exact Bool.noConfusion hic
        · cases rcall with
          | exn =>
              refine ⟨h1, ?_, ?_, ?_⟩ <;> dsimp only
              · omega
              · omega
              · intro hic; exact Bool.noConfusion hic
          | ok b2 =>
              cases b2
              · refine ⟨h1, ?_, ?_, ?_⟩ <;> dsimp only
                · omega
                · omega
                · intro hic; exact Bool.noConfusion hic
              · cases pp <;> dsimp only <;> split <;>
                  (refine ⟨h1, ?_, ?_, ?_⟩ <;> dsimp only) <;>
                  first
                    | omega
                    | (intro hic; exact Bool.noConfusion hic)

/-- `check_connectivity` never changes the configured restart cap. -/
lemma check_connectivity_config (s : WatchdogState) (p : ProbeOutcome) (now : ℤ) :
    (check_connectivity s p now).2.maxRestartsBeforeCooldown =
      s.maxRestartsBeforeCooldown := by
  cases p
  · unfold check_connectivity
    dsimp only
    split
    · split <;> rfl
    · rfl
  · rfl
  · rfl

/-- The configured restart cap is constant along every run. -/
lemma run_max (s : WatchdogState) (steps : List WStep) :
    (run s steps).maxRestartsBeforeCooldown = s.maxRestartsBeforeCooldown := by
  induction steps generalizing s with
  | nil => rfl
  | cons st rest ih =>
      have hstep : run s (st :: rest) = run (stepFn s st) rest := rfl
      rw [hstep, ih]
      cases st with
      | check p t => exact check_connectivity_config s p t
      | restart env => exact (restart_router_preserved_fields s env).2.2.2.2.1

/-- The cooldown invariant holds along every run whose configured cap is at
least 1. -/
lemma run_cooldownInv (s : WatchdogState) (steps : List WStep)
    (h : CooldownInv s) : CooldownInv (run s steps) := by
  induction steps generalizing s with
  | nil => exact h
  | cons st rest ih =>
      refine ih _ ?_
      cases st with
      | check p t => exact check_connectivity_cooldownInv s p t h
      | restart env => exact restart_router_cooldownInv s env h

/-- One step preserves `check_count = total_successful + total_failed`. -/
lemma stepFn_counter_sum (s : WatchdogState) (st : WStep)
    (h : s.checkCount = s.totalSuccessfulChecks + s.totalFailedChecks) :
    (stepFn s st).checkCount =
      (stepFn s st).totalSuccessfulChecks + (stepFn s st).totalFailedChecks := by
  cases st with
  | restart env =>
      obtain ⟨_, h1, h2, h3, _⟩ := restart_router_preserved_fields s env
      dsimp only [stepFn]
      rw [h1, h2, h3, h]
  | check p t =>
      dsimp only [stepFn]
      rw [check_connectivity_checkCount]
      cases p with
      | up =>
          obtain ⟨h1, h2⟩ := check_connectivity_counts_up s t
          rw [h1, h2]
          omega
      | down =>
          obtain ⟨h1, h2⟩ := check_connectivity_counts_down s t
          rw [h1, h2]
          omega
      | exn =>
          obtain ⟨h1, h2⟩ := check_connectivity_counts_exn s t
          rw [h1, h2]
          omega

/-- The counter sum identity propagates along any run. -/
lemma run_counter_sum (s : WatchdogState) (steps : List WStep)
    (h : s.checkCount = s.totalSuccessfulChecks + s.totalFailedChecks) :
    (run s steps).checkCount =
      (run s steps).totalSuccessfulChecks + (run s steps).totalFailedChecks := by
  induction steps generalizing s with
  | nil => exact h
  | cons st rest ih => exact ih _ (stepFn_counter_sum s st h)

end FritzboxWatchdog

namespace FritzboxWatchdog

/-! ### Claim theorems -/

/-- Claim C4.  Quorum law: for every assignment of boolean results to the
fixed list of 4 probe hosts, `check_internet` returns true iff at least
`4 / 2 + 1 = 3` of the hosts succeed — a strict majority, checked over all
16 combinations. -/
theorem quorum_law :
    ∀ (r1 r2 r3 r4 : Bool),
      check_internet (probeOfBools r1 r2 r3 r4) = true ↔
        3 ≤ [r1, r2, r3, r4].count true := by
  decide

/-- Claim C9.  Probe totality: `check_internet` is a total function of the
per-host ping outcomes — for every assignment, including exceptional
terminations of the ping primitive, it returns a boolean (never propagates
an exception), and a host counts toward the quorum exactly when its ping
process exited cleanly with code 0; `ping_test` maps every exceptional
outcome to `false` (the host counts as failing). -/
theorem probe_totality (probe : String → PingOutcome) :
    check_internet probe =
      decide (hosts.length / 2 + 1 ≤
        hosts.countP (fun h => decide (probe h = PingOutcome.ran 0))) ∧
    (∀ o : PingOutcome, ping_test o = decide (o = PingOutcome.ran 0)) := by
  have hpt : ∀ o : PingOutcome, ping_test o = decide (o = PingOutcome.ran 0) := by
    intro o
    cases o with
    | ran code =>
        by_cases h : code = 0
        · subst h; rfl
        · simp [ping_test, h]
    | timeoutExpired => rfl
    | fileNotFound => rfl
    | otherError => rfl
  refine ⟨?_, hpt⟩
  unfold check_internet
  rw [List.countP_congr (fun h _ => by rw [hpt (probe h)])]

/-- Claim C1.  Cooldown rule: if `restart_count` is below the cap the check
permits a restart and touches no state; once `restart_count` reaches the
cap it reports not-permitted while fewer than `cooldown_hours * 3600`
seconds have elapsed since `last_restart_time` (state untouched), and the
first evaluation at or past expiry permits again and, as a side effect of
the query, resets `restart_count` to 0 and `in_cooldown` to false. -/
theorem cooldown_rule (s : WatchdogState) (now : ℤ) :
    (s.restartCount < s.maxRestartsBeforeCooldown →
      isInCooldown s now = (.no, s)) ∧
    (s.maxRestartsBeforeCooldown ≤ s.restartCount →
      (now - s.lastRestartTime < s.cooldownHours * 3600 →
        (isInCooldown s now).1 ≠ CooldownResult.no ∧ (isInCooldown s now).2 = s) ∧
      (s.cooldownHours * 3600 ≤ now - s.lastRestartTime →
        isInCooldown s now = (.no, { s with restartCount := 0, inCooldown := false }))) := by
  rcases isInCooldown_cases s now with ⟨h, heq⟩ | ⟨h, h2, heq⟩ | ⟨h, h2, heq⟩
  · refine ⟨fun _ => heq, fun h' => absurd h' (not_le.mpr h)⟩
  · refine ⟨fun h' => absurd h (not_le.mpr h'), fun _ => ⟨fun _ => ?_, fun h3 => absurd h3 (not_le.mpr h2)⟩⟩
    rw [heq]
    exact ⟨by simp, rfl⟩
  · refine ⟨fun h' => absurd h (not_le.mpr h'), fun _ => ⟨fun h3 => absurd h3 (not_lt.mpr h2), fun _ => heq⟩⟩

/-- Example state for exercising `cooldown_rule`: the default configuration
(`max_restarts_before_cooldown = 3`, `cooldown_hours = 12`) with the budget
exhausted and the last restart at time 0. -/
def c1Exhausted : WatchdogState :=
  { initState 2 3 12 with restartCount := 3 }

/-- Example state with restart budget left. -/
def c1Fresh : WatchdogState :=
  { initState 2 3 12 with restartCount := 1 }

/-- Witness for `cooldown_rule`: with budget left the check permits; with the
budget exhausted it denies at 1 second of elapsed time and permits again at
`12 * 3600` seconds, resetting the counters. -/
theorem cooldown_rule_witness :
    isInCooldown c1Fresh 5 = (.no, c1Fresh) ∧
    ((isInCooldown c1Exhausted 1).1 ≠ CooldownResult.no ∧
      (isInCooldown c1Exhausted 1).2 = c1Exhausted) ∧
    isInCooldown c1Exhausted 43200 =
      (.no, { c1Exhausted with restartCount := 0, inCooldown := false }) :=
  ⟨(cooldown_rule c1Fresh 5).1 (by decide),
   ((cooldown_rule c1Exhausted 1).2 (by decide)).1 (by decide),
   ((cooldown_rule c1Exhausted 43200).2 (by decide)).2 (by decide)⟩

/-- State used to refute claim C6's units: budget exhausted, last restart at
time 0, default `cooldown_hours = 12`. -/
def c6State : WatchdogState :=
  { initState 2 3 12 with restartCount := 3 }

/-- Counterexample to claim C6 as stated: with `cooldown_hours = 12` and zero
elapsed time, the not-permitted result carries the value 12 (hours), not
`12 * 3600 = 43200` (seconds) as the claim asserts. -/
theorem remaining_cooldown_cex :
    (isInCooldown c6State 0).1 = CooldownResult.yes 12 ∧
    (isInCooldown c6State 0).1 ≠ CooldownResult.yes (12 * 3600) := by
  have h : (isInCooldown c6State 0).1 = CooldownResult.yes 12 := by
    simp [isInCooldown, c6State, initState]
    norm_num
  refine ⟨h, ?_⟩
  rw [h]
  intro hcon
  have : (12 : ℚ) = 12 * 3600 := by injection hcon
  norm_num at this

/-- Claim C6 amended: for every state with
`restart_count >= max_restarts_before_cooldown` and
`elapsed = now - last_restart_time < cooldown_hours * 3600`, the
not-permitted result carries the remaining time **in hours**,
`(cooldown_hours * 3600 - elapsed) / 3600` (e.g. 12 for
`cooldown_hours = 12` and `elapsed = 0`), and the state is untouched. -/
theorem remaining_cooldown_amended (s : WatchdogState) (now : ℤ)
    (h1 : s.maxRestartsBeforeCooldown ≤ s.restartCount)
    (h2 : now - s.lastRestartTime < s.cooldownHours * 3600) :
    (isInCooldown s now).1 =
      CooldownResult.yes
        (((s.cooldownHours * 3600 - (now - s.lastRestartTime) : ℤ) : ℚ) / 3600) ∧
    (isInCooldown s now).2 = s := by
  rcases isInCooldown_cases s now with ⟨h, _⟩ | ⟨_, _, heq⟩ | ⟨_, h2', _⟩
  · exact absurd h1 (not_le.mpr h)
  · rw [heq]; exact ⟨rfl, rfl⟩
  · exact absurd h2 (not_lt.mpr h2')

/-- Witness for `remaining_cooldown_amended`: at `c6State` with zero elapsed
time the carried value is `43200 / 3600 = 12` hours. -/
theorem remaining_cooldown_amended_witness :
    (isInCooldown c6State 0).1 =
      CooldownResult.yes (((c6State.cooldownHours * 3600 -
        ((0 : ℤ) - c6State.lastRestartTime) : ℤ) : ℚ) / 3600) ∧
    (isInCooldown c6State 0).2 = c6State :=
  remaining_cooldown_amended c6State 0 (by decide) (by decide)

/-- State used to refute claim C3 as stated: one restart performed
(`restart_count = 1`) but no consecutive failures outstanding — the state
after a restart restored connectivity. -/
def c3State : WatchdogState :=
  { initState 2 3 12 with restartCount := 1 }

/-- Counterexample to claim C3 as stated: in a state with
`restart_count = 1 > 0` but `consecutive_failures = 0`, a successful
connectivity check leaves `restart_count` at 1 — the reset only happens
under `consecutive_failures > 0`. -/
theorem recovery_clears_budget_cex :
    (0 : Int) < c3State.restartCount ∧
    (check_connectivity c3State .up 5).1 = true ∧
    (check_connectivity c3State .up 5).2.restartCount = 1 := by
  decide

/-- Claim C3 amended: for every state with `restart_count > 0` **and**
`consecutive_failures > 0` (the connectivity was down and is now restored),
a successful connectivity check resets `restart_count` to 0 and
`in_cooldown` to false, with no condition on the cooldown window. -/
theorem recovery_clears_budget_amended (s : WatchdogState) (now : ℤ)
    (hcf : 0 < s.consecutiveFailures) (hrc : (0 : Int) < s.restartCount) :
    (check_connectivity s .up now).1 = true ∧
    (check_connectivity s .up now).2.restartCount = 0 ∧
    (check_connectivity s .up now).2.inCooldown = false := by
  unfold check_connectivity
  dsimp only
  rw [if_pos hcf, if_pos hrc]
  exact ⟨rfl, rfl, rfl⟩

/-- State for the `recovery_clears_budget_amended` witness: in cooldown with
an exhausted budget and two outstanding failures. -/
def c3Witness : WatchdogState :=
  { initState 2 3 12 with
      restartCount := 3, inCooldown := true, consecutiveFailures := 2 }

/-- Witness for `recovery_clears_budget_amended`: a successful check from a
cooldown state with outstanding failures clears the budget and the flag. -/
theorem recovery_clears_budget_amended_witness :
    (check_connectivity c3Witness .up 7).1 = true ∧
    (check_connectivity c3Witness .up 7).2.restartCount = 0 ∧
    (check_connectivity c3Witness .up 7).2.inCooldown = false :=
  recovery_clears_budget_amended c3Witness 7 (by decide) (by decide)

/-- Claim C5.  Consecutive-failures law: for every finite sequence of probe
results fed through `check_connectivity` from the initial state,
`consecutive_failures` equals the number of checks since the most recent
successful check (all the checks when none succeeded); a successful check
sets it to exactly 0, and a failed or raising check only ever increments
it. -/
theorem consecutive_failures_law (mf : Nat) (mr : Int) (ch : ℤ) :
    (∀ seq : List (ProbeOutcome × ℤ),
      (runChecks (initState mf mr ch) seq).consecutiveFailures =
        failsSinceLastSuccess seq) ∧
    (∀ (s : WatchdogState) (now : ℤ),
      (check_connectivity s .up now).2.consecutiveFailures = 0) ∧
    (∀ (s : WatchdogState) (now : ℤ),
      (check_connectivity s .down now).2.consecutiveFailures =
        s.consecutiveFailures + 1) ∧
    (∀ (s : WatchdogState) (now : ℤ),
      (check_connectivity s .exn now).2.consecutiveFailures =
        s.consecutiveFailures + 1) := by
  refine ⟨fun seq => ?_, fun s now => rfl, fun s now => rfl, fun s now => rfl⟩
  rw [runChecks_cf]
  cases h : hasSuccess seq <;> simp [initState]

/-- Claim C10.  Counter bookkeeping: every `check_connectivity` call
increments `check_count` by exactly 1 and exactly one of
`total_successful_checks` (success) or `total_failed_checks` (failure or
exception) by exactly 1, so along every run from the initial state
`check_count = total_successful_checks + total_failed_checks`. -/
theorem counter_bookkeeping :
    (∀ (s : WatchdogState) (p : ProbeOutcome) (now : ℤ),
      (check_connectivity s p now).2.checkCount = s.checkCount + 1) ∧
    (∀ (s : WatchdogState) (now : ℤ),
      (check_connectivity s .up now).2.totalSuccessfulChecks =
          s.totalSuccessfulChecks + 1 ∧
        (check_connectivity s .up now).2.totalFailedChecks = s.totalFailedChecks) ∧
    (∀ (s : WatchdogState) (now : ℤ),
      (check_connectivity s .down now).2.totalFailedChecks =
          s.totalFailedChecks + 1 ∧
        (check_connectivity s .down now).2.totalSuccessfulChecks =
          s.totalSuccessfulChecks) ∧
    (∀ (s : WatchdogState) (now : ℤ),
      (check_connectivity s .exn now).2.totalFailedChecks =
          s.totalFailedChecks + 1 ∧
        (check_connectivity s .exn now).2.totalSuccessfulChecks =
          s.totalSuccessfulChecks) ∧
    (∀ (mf : Nat) (mr : Int) (ch : ℤ) (steps : List WStep),
      (run (initState mf mr ch) steps).checkCount =
        (run (initState mf mr ch) steps).totalSuccessfulChecks +
          (run (initState mf mr ch) steps).totalFailedChecks) :=
  ⟨check_connectivity_checkCount,
   check_connectivity_counts_up,
   check_connectivity_counts_down,
   check_connectivity_counts_exn,
   fun mf mr ch steps => run_counter_sum (initState mf mr ch) steps rfl⟩

/-- State used to refute claim C2 as stated: budget exhausted
(`restart_count = 3`), in cooldown, last restart at time 0. -/
def c2State : WatchdogState :=
  { initState 2 3 12 with restartCount := 3, inCooldown := true }

/-- Events refuting claim C2 as stated: the cooldown window has just elapsed
(`now = 12 * 3600`), the router is reachable, and the restart call raises a
transport error. -/
def c2Env : RestartEnv :=
  { now := 43200, reachable := .ok true, restartCall := .exn,
    restartTime := 43200, postProbe := .down }

/-- Counterexample to claim C2 as stated: this attempt reaches the
`restart()` call (the cooldown check permits — its expiry branch — and the
router is reachable) and the call raises, yet the attempt does not leave
`restart_count` as it was before the attempt: the expiry reset inside the
permission check drops it from 3 to 0, so the net change is not zero. -/
theorem transport_rollback_cex :
    c2Env.reachable = CallOutcome.ok true ∧
    c2Env.restartCall = CallOutcome.exn ∧
    (isInCooldown { c2State with
        totalRestartsAttempted := c2State.totalRestartsAttempted + 1 } c2Env.now).1 =
      CooldownResult.no ∧
    (restart_router c2State c2Env).2.restartCount ≠ c2State.restartCount := by
  decide

/-- Claim C2 amended: a restart attempt that reaches the `restart()` call
(the cooldown check permits and the router is reachable) and sees it raise
a transport error leaves `total_restarts_attempted` exactly as before the
attempt, and leaves `restart_count` at its pre-attempt value when the
attempt was permitted below the cap — but at 0 when the permission came
from the cooldown-expiry branch, whose reset persists through the
rollback.  The attempt returns false. -/
theorem transport_rollback_amended (s : WatchdogState) (env : RestartEnv)
    (hperm : s.restartCount < s.maxRestartsBeforeCooldown ∨
      (s.maxRestartsBeforeCooldown ≤ s.restartCount ∧
        s.cooldownHours * 3600 ≤ env.now - s.lastRestartTime))
    (hreach : env.reachable = CallOutcome.ok true)
    (hcall : env.restartCall = CallOutcome.exn) :
    (restart_router s env).1 = false ∧
    (restart_router s env).2.totalRestartsAttempted = s.totalRestartsAttempted ∧
    (restart_router s env).2.restartCount =
      (if s.restartCount < s.maxRestartsBeforeCooldown then s.restartCount else 0) := by
  unfold restart_router
  dsimp only
  rcases isInCooldown_cases { s with totalRestartsAttempted := s.totalRestartsAttempted + 1 }
      env.now with ⟨hlt, heq⟩ | ⟨hge, hwin, heq⟩ | ⟨hge, hexp, heq⟩
  · have hlt' : s.restartCount < s.maxRestartsBeforeCooldown := hlt
    rw [heq]
    dsimp only
    rw [hreach]
    dsimp only
    rw [hcall]
    refine ⟨rfl, ?_, ?_⟩ <;> dsimp only
    · omega
    · rw [if_pos hlt']
      omega
  · have hge' : s.maxRestartsBeforeCooldown ≤ s.restartCount := hge
    have hwin' : env.now - s.lastRestartTime < s.cooldownHours * 3600 := hwin
    rcases hperm with h | ⟨h, h2⟩
    · omega
    · omega
  · have hge' : s.maxRestartsBeforeCooldown ≤ s.restartCount := hge
    rw [heq]
    dsimp only
    rw [hreach]
    dsimp only
    rw [hcall]
    refine ⟨rfl, ?_, ?_⟩ <;> dsimp only
    · omega
    · rw [if_neg (not_lt.mpr hge')]
      omega

/-- State for the `transport_rollback_amended` witness: one restart already
performed, below the cap of 3. -/
def c2Witness : WatchdogState :=
  { initState 2 3 12 with restartCount := 1, consecutiveFailures := 2 }

/-- Witness for `transport_rollback_amended`: from a below-cap state, a
raised restart call leaves both counters at their pre-attempt values. -/
theorem transport_rollback_amended_witness :
    (restart_router c2Witness c2Env).1 = false ∧
    (restart_router c2Witness c2Env).2.totalRestartsAttempted =
      c2Witness.totalRestartsAttempted ∧
    (restart_router c2Witness c2Env).2.restartCount =
      (if c2Witness.restartCount < c2Witness.maxRestartsBeforeCooldown then
        c2Witness.restartCount else 0) :=
  transport_rollback_amended c2Witness c2Env (Or.inl (by decide)) (by decide) (by decide)

/-- Events for claim C7: the cooldown check permits, the router is
reachable, and the restart call returns `False` (every restart method
failed to elicit a response). -/
def c7Env : RestartEnv :=
  { now := 50, reachable := .ok true, restartCall := .ok false,
    restartTime := 50, postProbe := .down }

/-- Claim C7.  Asymmetric rollback on refused restart: when the attempt
reaches `restart()` (the cooldown check permits and the router is
reachable) and the call returns false, only `restart_count` is rolled back
— its increment is undone, leaving it at the value the permission check
left behind (the pre-attempt value below the cap, 0 after an expiry
reset) — while `total_restarts_attempted` keeps its increment (net +1),
and the attempt returns false. -/
theorem refused_restart_rollback (s : WatchdogState) (env : RestartEnv)
    (hperm : s.restartCount < s.maxRestartsBeforeCooldown ∨
      (s.maxRestartsBeforeCooldown ≤ s.restartCount ∧
        s.cooldownHours * 3600 ≤ env.now - s.lastRestartTime))
    (hreach : env.reachable = CallOutcome.ok true)
    (hcall : env.restartCall = CallOutcome.ok false) :
    (restart_router s env).1 = false ∧
    (restart_router s env).2.totalRestartsAttempted = s.totalRestartsAttempted + 1 ∧
    (restart_router s env).2.restartCount =
      (if s.restartCount < s.maxRestartsBeforeCooldown then s.restartCount else 0) := by
  unfold restart_router
  dsimp only
  rcases isInCooldown_cases { s with totalRestartsAttempted := s.totalRestartsAttempted + 1 }
      env.now with ⟨hlt, heq⟩ | ⟨hge, hwin, heq⟩ | ⟨hge, hexp, heq⟩
  · have hlt' : s.restartCount < s.maxRestartsBeforeCooldown := hlt
    rw [heq]
    dsimp only
    rw [hreach]
    dsimp only
    rw [hcall]
    refine ⟨rfl, rfl, ?_⟩
    dsimp only
    rw [if_pos hlt']
    omega
  · have hge' : s.maxRestartsBeforeCooldown ≤ s.restartCount := hge
    have hwin' : env.now - s.lastRestartTime < s.cooldownHours * 3600 := hwin
    rcases hperm with h | ⟨h, h2⟩
    · omega
    · omega
  · have hge' : s.maxRestartsBeforeCooldown ≤ s.restartCount := hge
    rw [heq]
    dsimp only
    rw [hreach]
    dsimp only
    rw [hcall]
    refine ⟨rfl, rfl, ?_⟩
    dsimp only
    rw [if_neg (not_lt.mpr hge')]
    omega

/-- State for the `refused_restart_rollback` witness: one restart already
performed, below the cap of 3. -/
def c7State : WatchdogState :=
  { initState 2 3 12 with restartCount := 1, consecutiveFailures := 2 }

/-- Witness for `refused_restart_rollback`: from a below-cap state, a
refused restart keeps the attempt counter's increment and restores
`restart_count`. -/
theorem refused_restart_rollback_witness :
    (restart_router c7State c7Env).1 = false ∧
    (restart_router c7State c7Env).2.totalRestartsAttempted =
      c7State.totalRestartsAttempted + 1 ∧
    (restart_router c7State c7Env).2.restartCount =
      (if c7State.restartCount < c7State.maxRestartsBeforeCooldown then
        c7State.restartCount else 0) :=
  refused_restart_rollback c7State c7Env (Or.inl (by decide)) (by decide) (by decide)

/-- Events refuting claim C8 as stated for a configured cap of 0: the
cooldown window since the initial `last_restart_time = 0` has elapsed, the
router is reachable and the restart succeeds (post-restart probe still
down). -/
def c8CexEnv : RestartEnv :=
  { now := 43200, reachable := .ok true, restartCall := .ok true,
    restartTime := 43200, postProbe := .down }

/-- Counterexample to claim C8 as stated: the cap is loaded from the
environment without validation, and with a configured cap of 0 one
successful restart step from the initial state reaches
`in_cooldown = true` with `restart_count = 1`, exceeding the cap — so
"`restart_count` never exceeds the cap while `in_cooldown` is true" fails
for that configuration. -/
theorem cooldown_flag_invariant_cex :
    (run (initState 2 0 12) [.restart c8CexEnv]).inCooldown = true ∧
    (run (initState 2 0 12) [.restart c8CexEnv]).maxRestartsBeforeCooldown = 0 ∧
    ¬ ((run (initState 2 0 12) [.restart c8CexEnv]).restartCount ≤
        (run (initState 2 0 12) [.restart c8CexEnv]).maxRestartsBeforeCooldown) := by
  decide

/-- Claim C8 amended: in every state reachable from the initial state by
`check_connectivity` and `restart_router` steps, **provided the configured
cap is at least 1** (the default is 3; a cap of 0 breaks the invariant, see
the counterexample), the cap is unchanged and `in_cooldown = true` implies
the cap ≤ `restart_count` ≤ the cap. -/
theorem cooldown_flag_invariant (mf : Nat) (mr : Int) (ch : ℤ) (steps : List WStep)
    (hmr : 1 ≤ mr) :
    (run (initState mf mr ch) steps).maxRestartsBeforeCooldown = mr ∧
    ((run (initState mf mr ch) steps).inCooldown = true →
      mr ≤ (run (initState mf mr ch) steps).restartCount ∧
      (run (initState mf mr ch) steps).restartCount ≤ mr) := by
  have hmax : (run (initState mf mr ch) steps).maxRestartsBeforeCooldown = mr :=
    run_max _ _
  obtain ⟨h1, h2, h3, h4⟩ := run_cooldownInv (initState mf mr ch) steps
    ⟨hmr, le_refl 0, le_trans zero_le_one hmr, fun hic => Bool.noConfusion hic⟩
  refine ⟨hmax, fun hic => ?_⟩
  have h5 := h4 hic
  rw [hmax] at h3 h5
  omega

/-- Events for the `cooldown_flag_invariant` witness: a permitted,
successful restart whose post-restart probe still fails. -/
def c8Env : RestartEnv :=
  { now := 10, reachable := .ok true, restartCall := .ok true,
    restartTime := 10, postProbe := .down }

/-- Witness for `cooldown_flag_invariant`: with a cap of 1, a single
successful restart step lands in cooldown with `restart_count = 1`, inside
the bounds the theorem gives. -/
theorem cooldown_flag_invariant_witness :
    (run (initState 2 1 12) [.restart c8Env]).inCooldown = true ∧
    (run (initState 2 1 12) [.restart c8Env]).maxRestartsBeforeCooldown = 1 ∧
    ((1 : Int) ≤ (run (initState 2 1 12) [.restart c8Env]).restartCount ∧
      (run (initState 2 1 12) [.restart c8Env]).restartCount ≤ 1) :=
  ⟨by decide,
   (cooldown_flag_invariant 2 1 12 [.restart c8Env] (by decide)).1,
   (cooldown_flag_invariant 2 1 12 [.restart c8Env] (by decide)).2 (by decide)⟩

end FritzboxWatchdog
